import Mathlib

/-!
# Verification of the War Thunder squadron scraping core (`warthunder-ss.py`)

Shallow embedding of the data-acquisition-and-extraction pipeline:

* `get_squadron_page_html` — the cached-fetch orchestrator. The process-global
  `html_cache` dictionary, the current wall-clock time (`time.time()`), and the
  outcome of the `cloudscraper` fetch (which either yields a body string or
  raises) are passed explicitly; the function returns the produced markup, the
  updated cache, and whether the fetch code path ran.
* `get_players_ratings_from_squadron` — the roster decoder. BeautifulSoup is
  modelled abstractly: the result of
  `soup.find(class_="squadrons-members__table")` followed by
  `find_all(class_="squadrons-members__grid-item")` is an
  `Option (List String)` — `none` when no element carries the table's class
  marker, otherwise the in-document-order list of grid-item cell texts.
  Because the Python code calls `table.find_all(...)` on the result of `find`
  unconditionally, the `none` case is an `AttributeError`, embedded as
  `Except.error`.
* `get_clan_stats` — the statistics decoder. The statistics container is an
  `Option (List (List StatLi))`: `none` when
  `soup.find("div", class_="squadrons-profile__header-stat squadrons-stat")`
  finds nothing, otherwise the list of `ul.squadrons-stat__item` groups, each
  a list of `li` elements carrying their class lists and text.
* `parse_value` — the numeric-coercion helper, with Python floats modelled as
  exact rationals over the decimal grammar `[+-]?(d+[.d*]|.d+)([eE][+-]?d+)?`
  (the special float spellings `inf`/`nan` and digit-group underscores are
  outside the modelled grammar).

Python `dict`s are modelled as insertion-ordered association lists with
`dictInsert` (update-in-place on an existing key, append otherwise). The
Python string methods (`strip`, `isdigit`, `lower`, `upper`, `split`,
`replace(",","")`) are modelled by structural recursion over the string's
character list, so every definition evaluates by kernel reduction.
-/

/-! ## Python primitives -/

/-- Python's insertion-ordered `dict` assignment `m[k] = v`: overwrite in place
when the key is present, append at the end otherwise. -/
def dictInsert {α : Type} (m : List (String × α)) (k : String) (v : α) :
    List (String × α) :=
  if m.any (fun p => p.1 = k) then
    m.map (fun p => if p.1 = k then (k, v) else p)
  else m ++ [(k, v)]

/-- Python `dict` lookup `m[k]` / `k in m` (returns `none` when absent). -/
def dictLookup {α : Type} (m : List (String × α)) (k : String) : Option α :=
  match m.find? (fun p => p.1 = k) with
  | some p => some p.2
  | none => none

/-- Python `s.strip()`: drop leading and trailing whitespace. -/
def pyStrip (s : String) : String :=
  ⟨((s.data.dropWhile Char.isWhitespace).reverse.dropWhile Char.isWhitespace).reverse⟩

/-- Python `s.lower()` (ASCII model). -/
def pyLower (s : String) : String :=
  ⟨s.data.map Char.toLower⟩

/-- Python `s.upper()` (ASCII model). -/
def pyUpper (s : String) : String :=
  ⟨s.data.map Char.toUpper⟩

/-- Python `s.isdigit()` (ASCII model): `s` is nonempty and every character is
a decimal digit. -/
def pyIsDigit (s : String) : Bool :=
  !s.data.isEmpty && s.data.all Char.isDigit

/-- Python `int(s)` on an all-digit string. -/
def pyInt (s : String) : Nat :=
  s.data.foldl (fun n c => 10 * n + (c.toNat - 48)) 0

/-- Python `s.replace(",", "")`: delete every comma. -/
def pyStripCommas (s : String) : String :=
  ⟨s.data.filter (fun c => c ≠ ',')⟩

/-- Helper for Python `s.split()`: accumulate maximal nonempty runs of
non-whitespace characters. -/
def pyWordsAux : List Char → List Char → List (List Char)
  | [], acc => if acc.isEmpty then [] else [acc.reverse]
  | c :: cs, acc =>
      if c.isWhitespace then
        if acc.isEmpty then pyWordsAux cs [] else acc.reverse :: pyWordsAux cs []
      else pyWordsAux cs (c :: acc)

/-- Python `s.split()`: split on whitespace runs, dropping empty fragments. -/
def pySplit (s : String) : List String :=
  (pyWordsAux s.data []).map (fun cs => ⟨cs⟩)

/-! ## Roster decoder (`get_players_ratings_from_squadron`, lines 96–154) -/

/-- The record stored under a player's name: built at row position 5 only when
the rating parsed, so `rating` is a genuine number while `activity` may be
absent. -/
structure PlayerRecord where
  rating : Nat
  activity : Option Nat
  rank : String
  joindate : String
deriving DecidableEq, Repr

/-- `if s.isdigit(): int(s) else None` — the strict integer parse used for the
rating (row position 2) and activity (row position 3) cells. -/
def parseRating (s : String) : Option Nat :=
  if pyIsDigit s then some (pyInt s) else none

/-- The local variables of the roster loop: the per-row scratch fields
(`playerKey`, `playerRating`, `playerActivity`, `playerRank`,
`playerJoinDate`) and the accumulated `playerData` dictionary. -/
structure RosterState where
  playerKey : String
  playerRating : Option Nat
  playerActivity : Option Nat
  playerRank : String
  playerJoinDate : String
  playerData : List (String × PlayerRecord)
deriving Repr

/-- The initial loop state. The Python scratch variables start unbound; the
defaults here are never observable in `playerData` because position 5 (the
only reader) is always preceded by positions 1–4 of the same row. -/
def rosterInit : RosterState :=
  ⟨"", none, none, "", "", []⟩

/-- One iteration of the roster loop body (lines 110–152): dispatch on the
current `rowCounter` value. Position 0 is the unused header cell; position 5
finalizes the row, inserting into `playerData` only when the rating parsed. -/
def rosterStep (rowCounter : Nat) (st : RosterState) (cellText : String) :
    RosterState :=
  if rowCounter = 1 then
    { st with playerKey := pyStrip cellText }
  else if rowCounter = 2 then
    { st with playerRating := parseRating (pyStrip cellText) }
  else if rowCounter = 3 then
    { st with playerActivity := parseRating (pyStrip cellText) }
  else if rowCounter = 4 then
    { st with playerRank := pyStrip cellText }
  else if rowCounter = 5 then
    let st' := { st with playerJoinDate := pyStrip cellText }
    match st'.playerRating with
    | some r =>
        let newRecord : PlayerRecord :=
          ⟨r, st'.playerActivity, st'.playerRank, st'.playerJoinDate⟩
        { st' with playerData := dictInsert st'.playerData st'.playerKey newRecord }
    | none => st'
  else st

/-- The roster loop: walk the grid-item cells, incrementing `rowCounter`
mod 6 after every cell. -/
def rosterLoopAux : Nat → RosterState → List String → RosterState
  | _, st, [] => st
  | c, st, cell :: rest => rosterLoopAux ((c + 1) % 6) (rosterStep c st cell) rest

/-- The roster loop run from the start of the cell list (`rowCounter = 0`),
projected to the resulting `playerData` dictionary. -/
def rosterLoop (cells : List String) : List (String × PlayerRecord) :=
  (rosterLoopAux 0 rosterInit cells).playerData

/-- `get_players_ratings_from_squadron`, decoding part (lines 98–154).
The argument is the abstract result of locating the roster table: `none` when
no element has class `squadrons-members__table`. In that case line 100,
`table.find_all(class_="squadrons-members__grid-item")`, dereferences `None`
and raises `AttributeError` — before the `if not table:` diagnostic at
line 105 can run — so the `none` case is an error, not an empty mapping. -/
def get_players_ratings_from_squadron (table : Option (List String)) :
    Except String (List (String × PlayerRecord)) :=
  match table with
  | none => Except.error "AttributeError: NoneType has no attribute find_all"
  | some tableElements => Except.ok (rosterLoop tableElements)

/-! ### Row-level view of the roster loop -/

/-- A complete six-cell roster row: position 0 is the unused header cell,
then name, rating, activity, rank, join date. -/
structure RosterRow where
  c0 : String
  c1 : String
  c2 : String
  c3 : String
  c4 : String
  c5 : String
deriving DecidableEq, Repr

/-- The six cells of a row, in document order. -/
def rowCells (r : RosterRow) : List String :=
  [r.c0, r.c1, r.c2, r.c3, r.c4, r.c5]

/-- A sequence of complete rows flattened to the grid-item cell list. -/
def flattenRows (rows : List RosterRow) : List String :=
  (rows.map rowCells).flatten

/-- The record a row produces when its rating cell parses to `v`. -/
def rowRecord (r : RosterRow) (v : Nat) : PlayerRecord :=
  ⟨v, parseRating (pyStrip r.c3), pyStrip r.c4, pyStrip r.c5⟩

/-- The effect of one complete row on the `playerData` dictionary: insert
under the stripped name iff the stripped rating cell is all digits. -/
def rowInsert (m : List (String × PlayerRecord)) (r : RosterRow) :
    List (String × PlayerRecord) :=
  match parseRating (pyStrip r.c2) with
  | some v => dictInsert m (pyStrip r.c1) (rowRecord r v)
  | none => m

/-- The composite state transformation of one complete row. -/
def rowEffect (st : RosterState) (r : RosterRow) : RosterState :=
  rosterStep 5 (rosterStep 4 (rosterStep 3 (rosterStep 2
    (rosterStep 1 (rosterStep 0 st r.c0) r.c1) r.c2) r.c3) r.c4) r.c5

lemma rosterLoopAux_row (st : RosterState) (r : RosterRow) (rest : List String) :
    rosterLoopAux 0 st (rowCells r ++ rest) = rosterLoopAux 0 (rowEffect st r) rest := rfl

lemma rowEffect_eq (st : RosterState) (r : RosterRow) :
    rowEffect st r =
      { playerKey := pyStrip r.c1
        playerRating := parseRating (pyStrip r.c2)
        playerActivity := parseRating (pyStrip r.c3)
        playerRank := pyStrip r.c4
        playerJoinDate := pyStrip r.c5
        playerData := rowInsert st.playerData r } := by
  cases h : parseRating (pyStrip r.c2) <;>
    simp [rowEffect, rosterStep, rowInsert, rowRecord, h]

/-- Cells processed from `rowCounter = 0` that never reach position 5 leave
`playerData` untouched. -/
lemma tail_no_insert (tail : List String) (h : tail.length < 6) (st : RosterState) :
    (rosterLoopAux 0 st tail).playerData = st.playerData := by
  rcases tail with _ | ⟨a, _ | ⟨b, _ | ⟨c, _ | ⟨d, _ | ⟨e, _ | ⟨f, rest⟩⟩⟩⟩⟩⟩
  · rfl
  · rfl
  · rfl
  · rfl
  · rfl
  · rfl
  · simp at h
    omega

/-- The roster loop over `k` complete rows followed by a partial row is a fold
of the per-row insert over the rows; the trailing cells contribute nothing. -/
lemma rosterLoopAux_flatten (rows : List RosterRow) (tail : List String)
    (htail : tail.length < 6) (st : RosterState) :
    (rosterLoopAux 0 st (flattenRows rows ++ tail)).playerData =
      rows.foldl rowInsert st.playerData := by
  induction rows generalizing st with
  | nil => simpa [flattenRows] using tail_no_insert tail htail st
  | cons r rows ih =>
      have hflat : flattenRows (r :: rows) = rowCells r ++ flattenRows rows := by
        simp [flattenRows]
      rw [hflat, List.append_assoc, rosterLoopAux_row, ih, rowEffect_eq]
      rfl

/-- Specialization to the full decoder. -/
lemma rosterLoop_flatten (rows : List RosterRow) (tail : List String)
    (htail : tail.length < 6) :
    rosterLoop (flattenRows rows ++ tail) = rows.foldl rowInsert [] := by
  simpa [rosterLoop, rosterInit] using
    rosterLoopAux_flatten rows tail htail rosterInit

lemma dictInsert_of_fresh {α : Type} (m : List (String × α)) (k : String) (v : α)
    (h : ∀ p ∈ m, p.1 ≠ k) : dictInsert m k v = m ++ [(k, v)] := by
  have hany : m.any (fun p => p.1 = k) = false := by
    simp only [List.any_eq_false, decide_eq_true_eq]
    exact h
  simp [dictInsert, hany]

/-- Folding the per-row insert over rows with all-digit ratings and pairwise
distinct (stripped) names, starting from a dictionary disjoint from those
names, appends one entry per row in order. -/
lemma foldl_rowInsert_fresh (rows : List RosterRow)
    (m : List (String × PlayerRecord))
    (hdig : ∀ r ∈ rows, pyIsDigit (pyStrip r.c2))
    (hnodup : (rows.map (fun r => pyStrip r.c1)).Nodup)
    (hdisj : ∀ r ∈ rows, ∀ p ∈ m, p.1 ≠ pyStrip r.c1) :
    rows.foldl rowInsert m =
      m ++ rows.map (fun r => (pyStrip r.c1, rowRecord r (pyInt (pyStrip r.c2)))) := by
  induction rows generalizing m with
  | nil => simp
  | cons r rows ih =>
      rw [List.map_cons, List.nodup_cons] at hnodup
      have hr : parseRating (pyStrip r.c2) = some (pyInt (pyStrip r.c2)) := by
        simp [parseRating, hdig r (by simp)]
      have hstep : rowInsert m r =
          m ++ [(pyStrip r.c1, rowRecord r (pyInt (pyStrip r.c2)))] := by
        rw [rowInsert, hr]
        exact dictInsert_of_fresh m _ _ (hdisj r (by simp))
      have hdisj' : ∀ r' ∈ rows,
          ∀ p ∈ m ++ [(pyStrip r.c1, rowRecord r (pyInt (pyStrip r.c2)))],
          p.1 ≠ pyStrip r'.c1 := by
        intro r' hr' p hp
        rcases List.mem_append.mp hp with hp | hp
        · exact hdisj r' (List.mem_cons_of_mem _ hr') p hp
        · have hpeq : p = (pyStrip r.c1, rowRecord r (pyInt (pyStrip r.c2))) := by
            simpa using hp
          subst hpeq
          intro hcontra
          have hc : pyStrip r.c1 = pyStrip r'.c1 := hcontra
          exact hnodup.1 (hc ▸ List.mem_map_of_mem (fun r' => pyStrip r'.c1) hr')
      rw [List.foldl_cons, hstep,
        ih _ (fun r' h' => hdig r' (List.mem_cons_of_mem _ h')) hnodup.2 hdisj']
      simp

/-- **C1.** The claim says a markup without the roster table's class marker
makes the roster decoder emit a diagnostic and return an empty mapping. In
the code, `soup.find(class_="squadrons-members__table")` yields `None` for
such markup (in particular for the empty string substituted after a fetch
failure), and line 100 immediately calls `table.find_all(...)` on it, raising
`AttributeError` before the `if not table:` diagnostic at line 105 can run:
the call raises instead of returning an empty mapping. -/
theorem roster_missing_table_raises :
    get_players_ratings_from_squadron none =
      Except.error "AttributeError: NoneType has no attribute find_all" := rfl

/-- **C2 (amended).** For a roster table of `6k + r` grid-item cells
(`0 ≤ r < 6`) forming `k` full rows whose stripped rating cells are all
digits, with the `k` stripped names pairwise distinct, the decoder returns
exactly `k` records, each taking name, rating, activity, rank and join date
from positions 1–5 of its row; the trailing `r` cells produce no record. -/
theorem roster_full_rows_decode (rows : List RosterRow) (tail : List String)
    (hdig : ∀ r ∈ rows, pyIsDigit (pyStrip r.c2))
    (hnodup : (rows.map (fun r => pyStrip r.c1)).Nodup)
    (htail : tail.length < 6) :
    get_players_ratings_from_squadron (some (flattenRows rows ++ tail)) =
      Except.ok (rows.map (fun r => (pyStrip r.c1, rowRecord r (pyInt (pyStrip r.c2))))) ∧
    (rosterLoop (flattenRows rows ++ tail)).length = rows.length := by
  have h1 : rosterLoop (flattenRows rows ++ tail) =
      rows.map (fun r => (pyStrip r.c1, rowRecord r (pyInt (pyStrip r.c2)))) := by
    rw [rosterLoop_flatten rows tail htail,
      foldl_rowInsert_fresh rows [] hdig hnodup (by simp)]
    simp
  exact ⟨by simp [get_players_ratings_from_squadron, h1], by simp [h1]⟩

theorem roster_full_rows_decode_witness :
    get_players_ratings_from_squadron
        (some (flattenRows [⟨"1", "Alice", "1234", "19", "Officer", "01.01.2024"⟩,
                            ⟨"2", "Bob", "777", "n/a", "Private", "02.02.2024"⟩] ++
               ["trailing", "cells"])) =
      Except.ok
        [("Alice", ⟨1234, some 19, "Officer", "01.01.2024"⟩),
         ("Bob", ⟨777, none, "Private", "02.02.2024"⟩)] := by
  have h := (roster_full_rows_decode
    [⟨"1", "Alice", "1234", "19", "Officer", "01.01.2024"⟩,
     ⟨"2", "Bob", "777", "n/a", "Private", "02.02.2024"⟩]
    ["trailing", "cells"] (by decide) (by decide) (by decide)).1
  rw [h]
  rfl

/-- **C2 counterexample.** The claim as stated promises exactly `k` records
for any `k` full all-digit-rating rows, but the mapping is keyed by the
stripped name: two full rows sharing the name `"Dup"` (12 cells, both rating
cells `"10"` and `"30"` all digits) produce one record, not two — the second
row overwrites the first. -/
theorem roster_duplicate_name_collapses :
    pyIsDigit "10" = true ∧ pyIsDigit "30" = true ∧
    get_players_ratings_from_squadron
        (some ["0", "Dup", "10", "20", "Officer", "2020",
               "0", "Dup", "30", "40", "Private", "2021"]) =
      Except.ok [("Dup", ⟨30, some 40, "Private", "2021"⟩)] ∧
    (rosterLoop ["0", "Dup", "10", "20", "Officer", "2020",
                 "0", "Dup", "30", "40", "Private", "2021"]).length ≠ 2 :=
  ⟨by decide, by decide, by rfl, by decide⟩

/-- **C3.** In a six-cell roster row, only the rating cell gates inclusion:
a record is inserted iff the stripped rating cell is all digits (so negative
signs, decimals, commas or `"N/A"` discard the whole row), while a non-digit
activity cell still yields a record with `activity` absent. -/
theorem roster_rating_gates_inclusion (c0 c1 c2 c3 c4 c5 : String) :
    (¬ pyIsDigit (pyStrip c2) →
        get_players_ratings_from_squadron (some [c0, c1, c2, c3, c4, c5]) =
          Except.ok []) ∧
    (pyIsDigit (pyStrip c2) →
        get_players_ratings_from_squadron (some [c0, c1, c2, c3, c4, c5]) =
          Except.ok [(pyStrip c1,
            ⟨pyInt (pyStrip c2), parseRating (pyStrip c3), pyStrip c4, pyStrip c5⟩)]) ∧
    (pyIsDigit (pyStrip c2) → ¬ pyIsDigit (pyStrip c3) →
        get_players_ratings_from_squadron (some [c0, c1, c2, c3, c4, c5]) =
          Except.ok [(pyStrip c1,
            ⟨pyInt (pyStrip c2), none, pyStrip c4, pyStrip c5⟩)]) := by
  have hcells : [c0, c1, c2, c3, c4, c5] =
      flattenRows [⟨c0, c1, c2, c3, c4, c5⟩] ++ [] := by
    simp [flattenRows, rowCells]
  have hloop : rosterLoop [c0, c1, c2, c3, c4, c5] =
      rowInsert [] ⟨c0, c1, c2, c3, c4, c5⟩ := by
    rw [hcells, rosterLoop_flatten _ _ (by simp)]
    rfl
  refine ⟨fun h => ?_, fun h => ?_, fun h h3 => ?_⟩
  · simp [get_players_ratings_from_squadron, hloop, rowInsert, parseRating, h]
  · simp [get_players_ratings_from_squadron, hloop, rowInsert, parseRating, h,
      dictInsert, rowRecord]
  · simp [get_players_ratings_from_squadron, hloop, rowInsert, parseRating, h, h3,
      dictInsert, rowRecord]

theorem roster_rating_gates_inclusion_witness :
    get_players_ratings_from_squadron
        (some ["0", "Carol", "N/A", "7", "Private", "03.03.2024"]) =
      Except.ok [] :=
  (roster_rating_gates_inclusion "0" "Carol" "N/A" "7" "Private" "03.03.2024").1
    (by decide)

/-! ## Cached-fetch orchestrator (`get_squadron_page_html`, lines 58–93) -/

/-- An `html_cache` entry, `{'content': ..., 'timestamp': ...}`. The
`time.time()` values are modelled as integer seconds. -/
structure CacheEntry where
  content : String
  timestamp : Int
deriving DecidableEq, Repr

/-- The process-global `html_cache` dictionary. -/
abbrev HtmlCache := List (String × CacheEntry)

/-- The freshness test of line 67:
`time.time() - cached_data['timestamp'] < 3600`. -/
def isFresh (now timestamp : Int) : Bool :=
  now - timestamp < 3600

/-- Python `sep.join(parts)`. -/
def pyJoin (sep : String) : List String → String
  | [] => ""
  | [part] => part
  | part :: parts => part ++ sep ++ pyJoin sep parts

/-- The squadron page URL of line 59:
`"https://warthunder.com/en/community/claninfo/" + "%20".join(squadronName.split())`. -/
def squadronInfoLink (squadronName : String) : String :=
  "https://warthunder.com/en/community/claninfo/" ++ pyJoin "%20" (pySplit squadronName)

/-- The observable outcome of one `get_squadron_page_html` call: the markup it
returns, the `html_cache` after the call, and whether control reached the
`cloudscraper` fetch attempt. -/
structure FetchOutcome where
  content : String
  cache : HtmlCache
  fetched : Bool
deriving DecidableEq, Repr

/-- `get_squadron_page_html` (lines 58–93). The globals and effects appear as
arguments: `disable_cache` is the `--no-cache` flag, `html_cache` the global
dictionary, `now` stands for `time.time()`, and `fetchResult` is the outcome
the `cloudscraper` fetch would produce — `some body` on success, `none` when
it raises (network error, timeout, `raise_for_status` on a non-2xx response,
unsolved anti-bot challenge). The `except` block swallows that exception and
returns `""`; on success with caching enabled the body is stored under the
lowercased name before being returned. -/
def get_squadron_page_html (disable_cache : Bool) (html_cache : HtmlCache)
    (now : Int) (fetchResult : Option String) (squadronName : String) :
    FetchOutcome :=
  let cache_key := pyLower squadronName
  let cachedHit : Option String :=
    if !disable_cache then
      match dictLookup html_cache cache_key with
      | some cached_data =>
          if isFresh now cached_data.timestamp then some cached_data.content
          else none
      | none => none
    else none
  match cachedHit with
  | some content => ⟨content, html_cache, false⟩
  | none =>
      match fetchResult with
      | none => ⟨"", html_cache, true⟩
      | some content =>
          if !disable_cache then
            ⟨content, dictInsert html_cache cache_key ⟨content, now⟩, true⟩
          else ⟨content, html_cache, true⟩

lemma dictLookup_dictInsert_self {α : Type} (m : List (String × α)) (k : String)
    (v : α) : dictLookup (dictInsert m k v) k = some v := by
  by_cases hany : m.any (fun p => p.1 = k) = true
  · have hfind : (m.map (fun p => if p.1 = k then (k, v) else p)).find?
        (fun p => p.1 = k) = some (k, v) := by
      induction m with
      | nil => simp at hany
      | cons p rest ih =>
          by_cases hp : p.1 = k
          · simp [hp, List.find?]
          · have hrest : rest.any (fun p => p.1 = k) = true := by
              simpa [List.any_cons, hp] using hany
            simpa [hp, List.find?] using ih hrest
    simp [dictLookup, dictInsert, hany, hfind]
  · have hanyf : m.any (fun p => p.1 = k) = false := Bool.eq_false_iff.mpr hany
    have hnone : m.find? (fun p => p.1 = k) = none := by
      rw [List.find?_eq_none]
      intro p hp
      have h2 := List.any_eq_false.mp hanyf p hp
      simpa using h2
    simp [dictLookup, dictInsert, hanyf, List.find?_append, hnone]

/-- **C4.** The freshness test accepts exactly the entries younger than 3600
seconds; with caching enabled, a fresh entry under the lowercased name is
returned as-is without reaching the fetch attempt, while a stale entry, a
missing entry, or disabled caching all lead to the fetcher being called. -/
theorem cache_freshness_and_hit (html_cache : HtmlCache) (now : Int)
    (fetchResult : Option String) (squadronName : String) :
    (∀ t0 : Int, now - t0 < 3600 → isFresh now t0 = true) ∧
    (∀ t0 : Int, 3600 ≤ now - t0 → isFresh now t0 = false) ∧
    (∀ e : CacheEntry, dictLookup html_cache (pyLower squadronName) = some e →
        isFresh now e.timestamp = true →
        get_squadron_page_html false html_cache now fetchResult squadronName =
          ⟨e.content, html_cache, false⟩) ∧
    (∀ e : CacheEntry, dictLookup html_cache (pyLower squadronName) = some e →
        isFresh now e.timestamp = false →
        (get_squadron_page_html false html_cache now fetchResult squadronName).fetched =
          true) ∧
    (dictLookup html_cache (pyLower squadronName) = none →
        (get_squadron_page_html false html_cache now fetchResult squadronName).fetched =
          true) ∧
    (get_squadron_page_html true html_cache now fetchResult squadronName).fetched =
      true := by
  refine ⟨?_, ?_, ?_, ?_, ?_, ?_⟩
  · intro t0 h
    simpa [isFresh] using h
  · intro t0 h
    simp [isFresh]
    omega
  · intro e he hf
    simp [get_squadron_page_html, he, hf]
  · intro e he hf
    cases fetchResult <;> simp [get_squadron_page_html, he, hf]
  · intro he
    cases fetchResult <;> simp [get_squadron_page_html, he]
  · cases fetchResult <;> simp [get_squadron_page_html]

theorem cache_freshness_and_hit_witness :
    get_squadron_page_html false [("alpha", ⟨"<html>cached</html>", 0⟩)] 100 none
        "Alpha" =
      ⟨"<html>cached</html>", [("alpha", ⟨"<html>cached</html>", 0⟩)], false⟩ :=
  (cache_freshness_and_hit [("alpha", ⟨"<html>cached</html>", 0⟩)] 100 none
      "Alpha").2.2.1 ⟨"<html>cached</html>", 0⟩ (by decide) (by decide)

/-- **C5.** When the fetch raises (`fetchResult = none`), the call leaves the
cache unchanged, and whenever the fetch path actually ran the returned markup
is the empty string. The failure is never propagated: the embedded function
is total, returning a `FetchOutcome` in every case. -/
theorem fetch_failure_swallowed (disable_cache : Bool) (html_cache : HtmlCache)
    (now : Int) (squadronName : String) :
    (get_squadron_page_html disable_cache html_cache now none squadronName).cache =
      html_cache ∧
    ((get_squadron_page_html disable_cache html_cache now none squadronName).fetched =
        true →
      (get_squadron_page_html disable_cache html_cache now none squadronName).content =
        "") := by
  cases disable_cache with
  | true => simp [get_squadron_page_html]
  | false =>
      rcases he : dictLookup html_cache (pyLower squadronName) with _ | e
      · simp [get_squadron_page_html, he]
      · cases hf : isFresh now e.timestamp <;> simp [get_squadron_page_html, he, hf]

theorem fetch_failure_swallowed_witness :
    (get_squadron_page_html false [("alpha", ⟨"old", 0⟩)] 9999 none "Alpha").cache =
      [("alpha", ⟨"old", 0⟩)] ∧
    (get_squadron_page_html false [("alpha", ⟨"old", 0⟩)] 9999 none "Alpha").content =
      "" :=
  ⟨(fetch_failure_swallowed false [("alpha", ⟨"old", 0⟩)] 9999 "Alpha").1,
   (fetch_failure_swallowed false [("alpha", ⟨"old", 0⟩)] 9999 "Alpha").2 (by decide)⟩

/-- **C6.** Frame conditions of the orchestrator: with caching disabled the
cache is never written and never read (the outcome does not depend on it);
with caching enabled there is at most one write per call — exactly one, under
the lowercased entity name, after a successful fetch — and none on a fresh
cache hit or on fetch failure. -/
theorem cache_frame_conditions (now : Int) (fetchResult : Option String)
    (squadronName : String) :
    (∀ html_cache : HtmlCache,
        (get_squadron_page_html true html_cache now fetchResult squadronName).cache =
          html_cache) ∧
    (∀ c c' : HtmlCache,
        (get_squadron_page_html true c now fetchResult squadronName).content =
          (get_squadron_page_html true c' now fetchResult squadronName).content ∧
        (get_squadron_page_html true c now fetchResult squadronName).fetched =
          (get_squadron_page_html true c' now fetchResult squadronName).fetched) ∧
    (∀ html_cache : HtmlCache,
        (get_squadron_page_html false html_cache now fetchResult squadronName).cache =
          html_cache ∨
        (get_squadron_page_html false html_cache now fetchResult squadronName).cache =
          dictInsert html_cache (pyLower squadronName)
            ⟨(get_squadron_page_html false html_cache now fetchResult
                squadronName).content, now⟩) ∧
    (∀ (html_cache : HtmlCache) (body : String), fetchResult = some body →
        (get_squadron_page_html false html_cache now fetchResult squadronName).fetched =
          true →
        (get_squadron_page_html false html_cache now fetchResult squadronName).cache =
          dictInsert html_cache (pyLower squadronName) ⟨body, now⟩) ∧
    (∀ (html_cache : HtmlCache) (e : CacheEntry),
        dictLookup html_cache (pyLower squadronName) = some e →
        isFresh now e.timestamp = true →
        (get_squadron_page_html false html_cache now fetchResult squadronName).cache =
          html_cache) ∧
    (∀ html_cache : HtmlCache,
        (get_squadron_page_html false html_cache now none squadronName).cache =
          html_cache) := by
  refine ⟨?_, ?_, ?_, ?_, ?_, ?_⟩
  · intro html_cache
    cases fetchResult <;> simp [get_squadron_page_html]
  · intro c c'
    cases fetchResult <;> simp [get_squadron_page_html]
  · intro html_cache
    rcases he : dictLookup html_cache (pyLower squadronName) with _ | e
    · cases fetchResult <;> simp [get_squadron_page_html, he]
    · cases hf : isFresh now e.timestamp <;> cases fetchResult <;>
        simp [get_squadron_page_html, he, hf]
  · intro html_cache body hbody hfetched
    subst hbody
    rcases he : dictLookup html_cache (pyLower squadronName) with _ | e
    · simp [get_squadron_page_html, he]
    · cases hf : isFresh now e.timestamp
      · simp [get_squadron_page_html, he, hf]
      · exfalso
        simp [get_squadron_page_html, he, hf] at hfetched
  · intro html_cache e he hf
    cases fetchResult <;> simp [get_squadron_page_html, he, hf]
  · intro html_cache
    rcases he : dictLookup html_cache (pyLower squadronName) with _ | e
    · simp [get_squadron_page_html, he]
    · cases hf : isFresh now e.timestamp <;> simp [get_squadron_page_html, he, hf]

theorem cache_frame_conditions_witness :
    (get_squadron_page_html false [] 50 (some "<html>") "Bravo").cache =
      dictInsert [] (pyLower "Bravo") ⟨"<html>", 50⟩ :=
  (cache_frame_conditions 50 (some "<html>") "Bravo").2.2.2.1 [] "<html>" rfl
    (by decide)

/-- **C10.** Two entity names equal after lowercasing share one cache entry:
after a successful fetch stored for the first name, a request within the
freshness window under the second name is served from the cache without
reaching the fetch attempt — even though `squadronInfoLink` preserves the
original casing, so the two names' fetch URLs can differ (witnessed by
`"ABC"` vs `"abc"`). -/
theorem case_insensitive_cache_sharing (n1 n2 : String)
    (hlow : pyLower n1 = pyLower n2) (html_cache : HtmlCache)
    (hcold : dictLookup html_cache (pyLower n1) = none)
    (now1 now2 : Int) (body : String) (fetchResult2 : Option String)
    (hfresh : now2 - now1 < 3600) :
    get_squadron_page_html false
        (get_squadron_page_html false html_cache now1 (some body) n1).cache
        now2 fetchResult2 n2 =
      ⟨body, (get_squadron_page_html false html_cache now1 (some body) n1).cache,
        false⟩ ∧
    squadronInfoLink "ABC" ≠ squadronInfoLink "abc" := by
  have h1 : (get_squadron_page_html false html_cache now1 (some body) n1).cache =
      dictInsert html_cache (pyLower n1) ⟨body, now1⟩ := by
    simp [get_squadron_page_html, hcold]
  have h2 : dictLookup (dictInsert html_cache (pyLower n1) ⟨body, now1⟩)
      (pyLower n2) = some ⟨body, now1⟩ := by
    rw [← hlow]
    exact dictLookup_dictInsert_self html_cache (pyLower n1) ⟨body, now1⟩
  have hf : isFresh now2 now1 = true := by
    simpa [isFresh] using hfresh
  constructor
  · rw [h1]
    simp [get_squadron_page_html, h2, hf]
  · decide

theorem case_insensitive_cache_sharing_witness :
    get_squadron_page_html false
        (get_squadron_page_html false [] 0 (some "<html>x</html>") "ABC").cache
        100 none "abc" =
      ⟨"<html>x</html>",
        (get_squadron_page_html false [] 0 (some "<html>x</html>") "ABC").cache,
        false⟩ ∧
    squadronInfoLink "ABC" ≠ squadronInfoLink "abc" :=
  case_insensitive_cache_sharing "ABC" "abc" (by decide) [] (by decide) 0 100
    "<html>x</html>" none (by decide)

/-! ## Statistics decoder (`get_clan_stats` and `parse_value`, lines 156–196) -/

/-- A Python value as produced by `parse_value`: an `int`, a `float`
(modelled as the exact rational the decimal literal denotes), or the
fallback string. Python's `None` is `Option.none` at the use sites. -/
inductive PyVal where
  | intVal : Int → PyVal
  | floatVal : Rat → PyVal
  | strVal : String → PyVal
deriving DecidableEq, Repr

/-- The numeric value of a digit run. -/
def digitsVal (cs : List Char) : Nat :=
  cs.foldl (fun n c => 10 * n + (c.toNat - 48)) 0

/-- The exact rational `±(ip.fp) · 10^e` denoted by a decimal literal with
integer digits `ip`, fraction digits `fp` and exponent `e`. -/
def decimalRat (neg : Bool) (ip fp : List Char) (e : Int) : Rat :=
  let mag : Int := (digitsVal ip * 10 ^ fp.length + digitsVal fp : Nat)
  let num : Int := if neg then -mag else mag
  if 0 ≤ e then Rat.divInt (num * 10 ^ e.toNat) (10 ^ fp.length)
  else Rat.divInt num (10 ^ fp.length * 10 ^ (-e).toNat)

/-- An optionally signed nonempty digit run, as an integer. -/
def parseSignedDigits : List Char → Option Int
  | '+' :: rest =>
      if !rest.isEmpty && rest.all Char.isDigit then some (digitsVal rest) else none
  | '-' :: rest =>
      if !rest.isEmpty && rest.all Char.isDigit then some (-(digitsVal rest : Int))
      else none
  | cs =>
      if !cs.isEmpty && cs.all Char.isDigit then some (digitsVal cs) else none

/-- The exponent suffix of a float literal: empty (exponent 0) or
`[eE][+-]?digits`; `none` when malformed. -/
def parseExpPart : List Char → Option Int
  | [] => some 0
  | 'e' :: rest => parseSignedDigits rest
  | 'E' :: rest => parseSignedDigits rest
  | _ => none

/-- Python `float(s)` on the plain decimal grammar
`[+-]?(digits[.digits*] | .digits+)([eE][+-]?digits)?`: the exact rational
value, or `none` when the text is rejected (whereupon `float` raises and
`parse_value` falls back to the string). The special spellings
`inf`/`infinity`/`nan` and digit-group underscores are outside the modelled
grammar. -/
def pyFloat? (s : String) : Option Rat :=
  let (neg, cs1) : Bool × List Char :=
    match s.data with
    | '+' :: rest => (false, rest)
    | '-' :: rest => (true, rest)
    | cs => (false, cs)
  let intPart := cs1.takeWhile Char.isDigit
  let afterInt := cs1.dropWhile Char.isDigit
  match afterInt with
  | '.' :: rest =>
      let fracPart := rest.takeWhile Char.isDigit
      let afterFrac := rest.dropWhile Char.isDigit
      if intPart.isEmpty && fracPart.isEmpty then none
      else
        match parseExpPart afterFrac with
        | some e => some (decimalRat neg intPart fracPart e)
        | none => none
  | _ =>
      if intPart.isEmpty then none
      else
        match parseExpPart afterInt with
        | some e => some (decimalRat neg intPart [] e)
        | none => none

/-- `parse_value` (lines 182–192): the `absent → int → float → string`
coercion chain. The int and float branches parse the comma-stripped
`s_clean`; the string fallback returns the stripped original `s` with its
commas kept. -/
def parse_value (text : String) : Option PyVal :=
  let s := pyStrip text
  if s = "" || pyUpper s = "N/A" then none
  else
    let s_clean := pyStripCommas s
    if pyIsDigit s_clean then some (PyVal.intVal (pyInt s_clean))
    else
      match pyFloat? s_clean with
      | some q => some (PyVal.floatVal q)
      | none => some (PyVal.strVal s)

/-- An `li` element inside a statistics group: its class attribute list and
its text content. -/
structure StatLi where
  classes : List String
  text : String
deriving DecidableEq, Repr

/-- The fixed label list of line 173. -/
def statLabels : List String :=
  ["Air targets destroyed", "Ground targets destroyed", "Deaths", "Flight Time"]

/-- The value cells of a group (lines 176–179): the `li`s whose class list
carries `squadrons-stat__item-value`, excluding those also tagged with the
`--label` modifier. -/
def value_lis (values_ul : List StatLi) : List StatLi :=
  (values_ul.filter
      (fun li => li.classes.contains "squadrons-stat__item-value")).filter
    (fun li => !li.classes.contains "squadrons-stat__item-value--label")

/-- `get_clan_stats` (lines 157–196), decoding part. The argument is the
abstract result of locating
`div.squadrons-profile__header-stat.squadrons-stat`: `none` when no such
container exists, otherwise the ordered `ul.squadrons-stat__item` groups,
each given by the list of its `li` elements; `ul_index` is the Python `int`
parameter (default 1). Since the four labels are pairwise distinct, the dict
comprehension `{labels[i]: values[i] for i in range(min(len(labels),
len(values)))}` is exactly the positional zip of labels with values. -/
def get_clan_stats (container : Option (List (List StatLi))) (ul_index : Int) :
    List (String × Option PyVal) :=
  match container with
  | none => []
  | some uls =>
      if uls.isEmpty || ul_index < 0 || (uls.length : Int) ≤ ul_index then []
      else
        match uls[ul_index.toNat]? with
        | none => []
        | some values_ul =>
            let values := (value_lis values_ul).map (fun li => parse_value li.text)
            List.zip statLabels values

/-- **C7.** The coercion chain of `parse_value`: absent on empty or
case-insensitive `"N/A"` stripped text; the integer when the comma-stripped
text is all digits (`"12,345" ↦ 12345`); the exact float value when the
general numeric parse accepts (`"3.5" ↦ 7/2`); otherwise the stripped
original text verbatim (`"Unknown" ↦ "Unknown"`) — in every case a value,
never an error. -/
theorem parse_value_coercion_chain :
    (∀ t : String, pyStrip t = "" → parse_value t = none) ∧
    (∀ t : String, pyUpper (pyStrip t) = "N/A" → parse_value t = none) ∧
    (∀ t : String, ¬ pyStrip t = "" → ¬ pyUpper (pyStrip t) = "N/A" →
        pyIsDigit (pyStripCommas (pyStrip t)) →
        parse_value t = some (PyVal.intVal (pyInt (pyStripCommas (pyStrip t))))) ∧
    (∀ (t : String) (q : Rat), ¬ pyStrip t = "" → ¬ pyUpper (pyStrip t) = "N/A" →
        ¬ pyIsDigit (pyStripCommas (pyStrip t)) →
        pyFloat? (pyStripCommas (pyStrip t)) = some q →
        parse_value t = some (PyVal.floatVal q)) ∧
    (∀ t : String, ¬ pyStrip t = "" → ¬ pyUpper (pyStrip t) = "N/A" →
        ¬ pyIsDigit (pyStripCommas (pyStrip t)) →
        pyFloat? (pyStripCommas (pyStrip t)) = none →
        parse_value t = some (PyVal.strVal (pyStrip t))) ∧
    parse_value "12,345" = some (PyVal.intVal 12345) ∧
    parse_value "N/A" = none ∧
    parse_value "3.5" = some (PyVal.floatVal (7 / 2 : Rat)) ∧
    parse_value "Unknown" = some (PyVal.strVal "Unknown") := by
  refine ⟨?_, ?_, ?_, ?_, ?_, ?_, ?_, ?_, ?_⟩
  · intro t h
    simp [parse_value, h]
  · intro t h
    simp [parse_value, h]
  · intro t h1 h2 h3
    simp [parse_value, h1, h2, h3]
  · intro t q h1 h2 h3 h4
    simp [parse_value, h1, h2, h3, h4]
  · intro t h1 h2 h3 h4
    simp [parse_value, h1, h2, h3, h4]
  · decide
  · decide
  · have h1 : parse_value "3.5" = some (PyVal.floatVal (Rat.divInt 35 10)) := rfl
    have h75 : Rat.divInt 35 10 = (7 / 2 : Rat) := by
      norm_num [Rat.divInt_eq_div]
    rw [h1, h75]
  · decide

theorem parse_value_coercion_chain_witness :
    parse_value " 7,5 " = some (PyVal.intVal 75) := by
  have h := parse_value_coercion_chain.2.2.1 " 7,5 " (by decide) (by decide)
    (by decide)
  rw [h]
  rfl

lemma map_fst_zip_take {α β : Type} :
    ∀ (l1 : List α) (l2 : List β),
      (l1.zip l2).map Prod.fst = l1.take l2.length
  | [], _ => by simp
  | _ :: _, [] => by simp
  | a :: l1, b :: l2 => by simp [map_fst_zip_take l1 l2]

/-- **C8.** With the statistics container present and the group index in
range, the result pairs the coerced values positionally with the four fixed
labels, truncated to the shorter sequence: the keys are an in-order prefix of
the label list, 3 extracted values give exactly 3 entries, and a 5th extra
value is dropped (4 entries). -/
theorem clan_stats_positional_pairing (uls : List (List StatLi)) (i : Int)
    (values_ul : List StatLi) (h0 : 0 ≤ i) (h1 : i < (uls.length : Int))
    (hget : uls[i.toNat]? = some values_ul) :
    get_clan_stats (some uls) i =
      List.zip statLabels
        ((value_lis values_ul).map (fun li => parse_value li.text)) ∧
    (get_clan_stats (some uls) i).length = min 4 (value_lis values_ul).length ∧
    (get_clan_stats (some uls) i).map Prod.fst =
      statLabels.take (value_lis values_ul).length ∧
    ((value_lis values_ul).length = 3 →
      (get_clan_stats (some uls) i).length = 3) ∧
    ((value_lis values_ul).length = 5 →
      (get_clan_stats (some uls) i).length = 4) := by
  have h2 : ¬ i < 0 := by omega
  have h3 : ¬ (uls.length : Int) ≤ i := by omega
  have h4 : uls.isEmpty = false := by
    cases uls with
    | nil => simp at h1; omega
    | cons u us => rfl
  have hmain : get_clan_stats (some uls) i =
      List.zip statLabels
        ((value_lis values_ul).map (fun li => parse_value li.text)) := by
    simp [get_clan_stats, h2, h3, h4, hget]
  refine ⟨hmain, ?_, ?_, ?_, ?_⟩
  · rw [hmain, List.length_zip]
    simp [statLabels]
  · rw [hmain, map_fst_zip_take]
    simp
  · intro hlen
    rw [hmain, List.length_zip]
    simp [statLabels, hlen]
  · intro hlen
    rw [hmain, List.length_zip]
    simp [statLabels, hlen]

theorem clan_stats_positional_pairing_witness :
    get_clan_stats
        (some [[],
               [⟨["squadrons-stat__item-value"], "12"⟩,
                ⟨["squadrons-stat__item-value"], "3.5"⟩,
                ⟨["squadrons-stat__item-value",
                  "squadrons-stat__item-value--label"], "Deaths"⟩,
                ⟨["squadrons-stat__item-value"], "N/A"⟩]]) 1 =
      [("Air targets destroyed", some (PyVal.intVal 12)),
       ("Ground targets destroyed", some (PyVal.floatVal (7 / 2 : Rat))),
       ("Deaths", none)] := by
  have h := (clan_stats_positional_pairing
    [[],
     [⟨["squadrons-stat__item-value"], "12"⟩,
      ⟨["squadrons-stat__item-value"], "3.5"⟩,
      ⟨["squadrons-stat__item-value",
        "squadrons-stat__item-value--label"], "Deaths"⟩,
      ⟨["squadrons-stat__item-value"], "N/A"⟩]] 1
    [⟨["squadrons-stat__item-value"], "12"⟩,
     ⟨["squadrons-stat__item-value"], "3.5"⟩,
     ⟨["squadrons-stat__item-value",
       "squadrons-stat__item-value--label"], "Deaths"⟩,
     ⟨["squadrons-stat__item-value"], "N/A"⟩]
    (by decide) (by decide) (by decide)).1
  have hlist : List.zip statLabels
      ((value_lis
          [⟨["squadrons-stat__item-value"], "12"⟩,
           ⟨["squadrons-stat__item-value"], "3.5"⟩,
           ⟨["squadrons-stat__item-value",
             "squadrons-stat__item-value--label"], "Deaths"⟩,
           ⟨["squadrons-stat__item-value"], "N/A"⟩]).map
        (fun li => parse_value li.text)) =
      [("Air targets destroyed", some (PyVal.intVal 12)),
       ("Ground targets destroyed", some (PyVal.floatVal (Rat.divInt 35 10))),
       ("Deaths", none)] := rfl
  have h75 : Rat.divInt 35 10 = (7 / 2 : Rat) := by
    norm_num [Rat.divInt_eq_div]
  rw [h, hlist, h75]

/-- **C9.** The stats decoder returns an empty mapping — and, being total,
never a fault — whenever the statistics container is absent, the group list
is empty, the group index is negative, or the group index is at least the
number of groups. -/
theorem clan_stats_empty_on_failure (container : Option (List (List StatLi)))
    (i : Int) :
    (container = none → get_clan_stats container i = []) ∧
    (get_clan_stats (some []) i = []) ∧
    (∀ uls : List (List StatLi), i < 0 → get_clan_stats (some uls) i = []) ∧
    (∀ uls : List (List StatLi), (uls.length : Int) ≤ i →
      get_clan_stats (some uls) i = []) := by
  refine ⟨?_, ?_, ?_, ?_⟩
  · intro h
    subst h
    rfl
  · simp [get_clan_stats]
  · intro uls h
    simp [get_clan_stats, h]
  · intro uls h
    simp [get_clan_stats, h]

theorem clan_stats_empty_on_failure_witness :
    get_clan_stats (some [[⟨["squadrons-stat__item-value"], "5"⟩]]) 7 = [] :=
  (clan_stats_empty_on_failure
      (some [[⟨["squadrons-stat__item-value"], "5"⟩]]) 7).2.2.2
    [[⟨["squadrons-stat__item-value"], "5"⟩]] (by decide)
